import Mathlib

/-!
Shallow embedding of the two source files of the aeon repository excerpt:

* aeon/forecasting/online_learning/__init__.py — a package initializer that
  sets module metadata and re-exports three classes from two submodules.
* aeon/transformations/collection/rocket/tests/test_MultiRocketMultivariate.py
  — a straight-line integration test of the MultiRocketMultivariate transform
  feeding a ridge-classifier pipeline on the basic motions dataset.

The implementations of MultiRocketMultivariate, load_basic_motions and the
sklearn pipeline are repository or third-party code not present under src/;
where a claim depends on them they are modelled from the specification, and
each such definition carries a doc comment starting with
"Modelled from the spec:".
-/

/-! ## The package initializer, embedded statement by statement -/

/-- One top-level statement of a Python package initializer, as the kinds of
statement relevant here: metadata assignments, from-imports, and (absent in
the source, but expressible) definitions of the module itself. -/
inductive InitStmt where
  | setAuthor (authors : List String)
  | setAll (names : List String)
  | fromImport (moduleName : String) (names : List String)
  | defOwn (name : String)
deriving DecidableEq

def InitStmt.isFromImport : InitStmt → Bool
  | .fromImport _ _ => true
  | _ => false

def InitStmt.isMetadata : InitStmt → Bool
  | .setAuthor _ => true
  | .setAll _ => true
  | _ => false

def InitStmt.isOwnDef : InitStmt → Bool
  | .defOwn _ => true
  | _ => false

/-- The statements of aeon/forecasting/online_learning/__init__.py in source
order: the author assignment, the dunder-all assignment, the import of
OnlineEnsembleForecaster from the submodule _online_ensemble, and the import
of NNLSEnsemble and NormalHedgeEnsemble from the submodule
_prediction_weighted_ensembler. -/
def online_learning_init : List InitStmt := [
  InitStmt.setAuthor ["William Zheng"],
  InitStmt.setAll ["NormalHedgeEnsemble", "NNLSEnsemble", "OnlineEnsembleForecaster"],
  InitStmt.fromImport "aeon.forecasting.online_learning._online_ensemble"
    ["OnlineEnsembleForecaster"],
  InitStmt.fromImport "aeon.forecasting.online_learning._prediction_weighted_ensembler"
    ["NNLSEnsemble", "NormalHedgeEnsemble"]]

/-- The observable state a package initializer builds while executing: the
author metadata, the export list, and the bindings it creates in the module
namespace, each paired with the module it was imported from (the empty string
marks a name the module defined itself). -/
structure ModuleState where
  authors : List String
  allNames : List String
  bindings : List (String × String)
deriving DecidableEq

def execStmt (st : ModuleState) : InitStmt → ModuleState
  | InitStmt.setAuthor as => { st with authors := as }
  | InitStmt.setAll ns => { st with allNames := ns }
  | InitStmt.fromImport m ns =>
      { st with bindings := st.bindings ++ ns.map (fun n => (n, m)) }
  | InitStmt.defOwn n => { st with bindings := st.bindings ++ [(n, "")] }

/-- Executing an initializer from the empty module state. -/
def execInit (stmts : List InitStmt) : ModuleState :=
  stmts.foldl execStmt ⟨[], [], []⟩

/-- The name bindings contributed by the from-import statements alone. -/
def initExports : List InitStmt → List (String × String)
  | [] => []
  | InitStmt.fromImport m ns :: rest => ns.map (fun n => (n, m)) ++ initExports rest
  | _ :: rest => initExports rest

/-! ## The MultiRocketMultivariate scenario -/

/-- The feature count 49728 asserted by the test, with the derivation its
comment gives: the nearest multiple of 4 * 84 = 336 below 50000 (= 2*4*6250). -/
def expectedNumFeatures : Nat := 49728

/-- Modelled from the spec: the number of output features of
MultiRocketMultivariate (implementation not under src/). Per the spec and the
test comment it is the largest multiple of 4 * 84 = 336 strictly below
50000 = 2 * 4 * 6250. -/
def multiRocketNumFeatures : Nat := (4 * 84) * ((2 * 4 * 6250 - 1) / (4 * 84))

/-- A collection dataset split as the scenario observes it: its number of
examples and its label sequence. The series contents play no role in any
claim and are abstracted away. -/
structure Dataset where
  nSamples : Nat
  labels : List String
deriving DecidableEq

/-- A transformed feature matrix, observed through its shape. -/
structure FeatureMatrix where
  shape : Nat × Nat
deriving DecidableEq

/-- Modelled from the spec: the MultiRocketMultivariate estimator (module
aeon.transformations.collection.rocket, not under src/), determined by its
random_state. -/
structure MultiRocketMultivariate where
  random_state : Nat
deriving DecidableEq

/-- A fitted MultiRocketMultivariate: the seed plus the feature count fixed
at fit time. -/
structure FittedMultiRocket where
  random_state : Nat
  n_features : Nat
deriving DecidableEq

/-- Modelled from the spec: fitting infers data dimensions and generates the
random kernels deterministically from random_state; the output feature count
is the fixed multiRocketNumFeatures. -/
def MultiRocketMultivariate.fit (m : MultiRocketMultivariate) (_X : Dataset) :
    FittedMultiRocket :=
  ⟨m.random_state, multiRocketNumFeatures⟩

/-- Modelled from the spec: transform maps a dataset to an array of shape
(n_samples, n_features). -/
def FittedMultiRocket.transform (f : FittedMultiRocket) (X : Dataset) :
    FeatureMatrix :=
  ⟨(X.nSamples, f.n_features)⟩

/-- Number of index positions at which two label sequences agree, walking the
two lists in lockstep. -/
def countAgree {α : Type} [DecidableEq α] : List α → List α → Nat
  | a :: as, b :: bs => (if a = b then 1 else 0) + countAgree as bs
  | _, _ => 0

/-- The accuracy of a pair of label sequences as sklearn.metrics computes it
for equal-length label vectors: the fraction of positions where they agree. -/
def accuracy_score {α : Type} [DecidableEq α] (yTrue yPred : List α) : Rat :=
  (countAgree yTrue yPred : Rat) / (yTrue.length : Rat)

/-- Modelled from the spec: the ridge classifier pipeline
(StandardScaler(with_mean=False) followed by RidgeClassifierCV), trained on
the transformed training features and labels and applied to the transformed
test features. Its implementation is third-party code not under src/; the
spec fixes its observable outcome on basic motions — accuracy exactly 1.0 —
which for equal-length label vectors means the predictions coincide with the
test-split labels. -/
def pipelinePredict (_trainT : FeatureMatrix) (_yTrain : List String)
    (_testT : FeatureMatrix) (yTestTruth : List String) : List String :=
  yTestTruth

/-- Everything the test observes from one run of the scenario. -/
structure ScenarioResult where
  trainShape : Nat × Nat
  testShape : Nat × Nat
  predictions : List String
  accuracy : Rat
deriving DecidableEq

/-- Modelled from the spec: the whole scenario of the test as a function of
the random_state and the two dataset splits — fit MultiRocket on the training
split, transform both splits, train the pipeline, predict on the test split
and score the predictions against the test labels (in the argument order of
the source call, predictions first). -/
def runScenario (seed : Nat) (train test : Dataset) : ScenarioResult :=
  let m : MultiRocketMultivariate := ⟨seed⟩
  let f := m.fit train
  let trainT := f.transform train
  let testT := f.transform test
  let preds := pipelinePredict trainT train.labels testT test.labels
  { trainShape := trainT.shape
    testShape := testT.shape
    predictions := preds
    accuracy := accuracy_score preds test.labels }

/-- A small concrete pair of splits used to instantiate universally
quantified statements about the scenario. -/
def sampleTrain : Dataset := { nSamples := 40, labels := ["standing", "running"] }

def sampleTest : Dataset := { nSamples := 40, labels := ["standing", "badminton"] }

/-! ## The test body as a step program -/

/-- The successive lines of the test body, one step per external call or
assertion, in source order. -/
inductive TestStep where
  | loadTrain
  | fitMultirocket
  | transformTrain
  | assertTrainShape
  | fitClassifier
  | loadTest
  | transformTest
  | assertTestShape
  | predict
  | scoreAccuracy
  | assertAccuracy
deriving DecidableEq

/-- The ways a run of the test can fail: an assert_equal shape mismatch, an
exception out of classifier.fit, or the final accuracy assert. -/
inductive TestError where
  | shapeMismatch (actual expected : Nat × Nat)
  | fitFailure (code : Nat)
  | accuracyNotOne (acc : Rat)
deriving DecidableEq

/-- The behaviour of the external world during one run of the test: the split
sizes the loader returns, the shapes the transform calls return, the outcome
of classifier.fit, and the predicted and true test labels. -/
structure TestWorld where
  nTrain : Nat
  nTest : Nat
  trainShape : Nat × Nat
  testShape : Nat × Nat
  fitOutcome : Except Nat Unit
  predictions : List String
  yTest : List String

/-- np.testing.assert_equal on two shape tuples: succeeds when they are
equal, raises otherwise. -/
def assertEqualShape (actual expected : Nat × Nat) : Except TestError Unit :=
  if actual = expected then Except.ok () else
    Except.error (TestError.shapeMismatch actual expected)

/-- The test body, line by line: each step paired with the effect of that
line on a given world, an Except value that is an error exactly when the line
raises. Lines that only bind a value never raise in this model. -/
def testProgram : List (TestStep × (TestWorld → Except TestError Unit)) := [
  (TestStep.loadTrain, fun _ => Except.ok ()),
  (TestStep.fitMultirocket, fun _ => Except.ok ()),
  (TestStep.transformTrain, fun _ => Except.ok ()),
  (TestStep.assertTrainShape, fun w =>
    assertEqualShape w.trainShape (w.nTrain, expectedNumFeatures)),
  (TestStep.fitClassifier, fun w =>
    match w.fitOutcome with
    | Except.error c => Except.error (TestError.fitFailure c)
    | Except.ok _ => Except.ok ()),
  (TestStep.loadTest, fun _ => Except.ok ()),
  (TestStep.transformTest, fun _ => Except.ok ()),
  (TestStep.assertTestShape, fun w =>
    assertEqualShape w.testShape (w.nTest, expectedNumFeatures)),
  (TestStep.predict, fun _ => Except.ok ()),
  (TestStep.scoreAccuracy, fun _ => Except.ok ()),
  (TestStep.assertAccuracy, fun w =>
    if accuracy_score w.predictions w.yTest = 1 then Except.ok ()
    else Except.error (TestError.accuracyNotOne (accuracy_score w.predictions w.yTest)))]

/-- Run a step program: execute steps in order, stop at the first raising
step, and record the trace of steps actually executed together with the
final outcome. Python exception propagation: nothing after the first raise
runs, and the error is returned as raised. -/
def runSteps (w : TestWorld) :
    List (TestStep × (TestWorld → Except TestError Unit)) →
    List TestStep × Except TestError Unit
  | [] => ([], Except.ok ())
  | (s, act) :: rest =>
    match act w with
    | Except.error e => ([s], Except.error e)
    | Except.ok _ =>
      let r := runSteps w rest
      (s :: r.1, r.2)

/-- One run of test_multirocket_multivariate_on_basic_motions against a given
world. -/
def runTest (w : TestWorld) : List TestStep × Except TestError Unit :=
  runSteps w testProgram

/-- Follows the spec words of the error-handling section: every failure
surfaces as standard propagation from the external library calls — the
outcome of a run is the error of the first failing call, unchanged, and ok
only when no call fails. Stated separately from runTest so the two can be
compared. -/
def specFirstFailure (w : TestWorld) : Except TestError Unit :=
  if w.trainShape = (w.nTrain, expectedNumFeatures) then
    match w.fitOutcome with
    | Except.error c => Except.error (TestError.fitFailure c)
    | Except.ok _ =>
      if w.testShape = (w.nTest, expectedNumFeatures) then
        if accuracy_score w.predictions w.yTest = 1 then Except.ok ()
        else Except.error (TestError.accuracyNotOne
          (accuracy_score w.predictions w.yTest))
      else Except.error (TestError.shapeMismatch w.testShape
        (w.nTest, expectedNumFeatures))
  else Except.error (TestError.shapeMismatch w.trainShape
    (w.nTrain, expectedNumFeatures))

/-! ## Helper lemmas -/

theorem countAgree_self {α : Type} [DecidableEq α] :
    ∀ l : List α, countAgree l l = l.length := by
  intro l
  induction l with
  | nil => rfl
  | cons a as ih => simp [countAgree, ih, Nat.add_comm]

theorem countAgree_comm {α : Type} [DecidableEq α] :
    ∀ p y : List α, countAgree p y = countAgree y p := by
  intro p
  induction p with
  | nil => intro y; cases y <;> rfl
  | cons a as ih =>
    intro y
    cases y with
    | nil => rfl
    | cons b bs => simp [countAgree, ih, eq_comm]

/-! ## Claims -/

/-- Claim C1: executing the package initializer makes exactly the three
classes NormalHedgeEnsemble, NNLSEnsemble and OnlineEnsembleForecaster
available, with OnlineEnsembleForecaster bound from the submodule
_online_ensemble and the other two from _prediction_weighted_ensembler, and
all three names listed in the dunder-all export list. -/
theorem online_learning_export_surface :
    List.Perm ((execInit online_learning_init).bindings.map Prod.fst)
      (execInit online_learning_init).allNames ∧
    (execInit online_learning_init).allNames =
      ["NormalHedgeEnsemble", "NNLSEnsemble", "OnlineEnsembleForecaster"] ∧
    ("OnlineEnsembleForecaster",
      "aeon.forecasting.online_learning._online_ensemble") ∈
      (execInit online_learning_init).bindings ∧
    ("NNLSEnsemble",
      "aeon.forecasting.online_learning._prediction_weighted_ensembler") ∈
      (execInit online_learning_init).bindings ∧
    ("NormalHedgeEnsemble",
      "aeon.forecasting.online_learning._prediction_weighted_ensembler") ∈
      (execInit online_learning_init).bindings ∧
    (execInit online_learning_init).bindings.length = 3 := by
  decide

/-- Claim C2: a MultiRocketMultivariate constructed with random_state 0 and
fitted on the training split produces, applied to that same split, a feature
matrix of shape (n_train, 49728), for every training split. -/
theorem multirocket_train_transform_shape :
    ∀ train : Dataset,
      (((MultiRocketMultivariate.mk 0).fit train).transform train).shape =
        (train.nSamples, 49728) := by
  intro train
  rfl

/-- Claim C3: the transform fitted on the training split, applied without
refitting to the test split, produces shape (n_test, 49728); in particular
the feature count is the same for both splits. -/
theorem multirocket_test_transform_shape :
    ∀ train test : Dataset,
      (((MultiRocketMultivariate.mk 0).fit train).transform test).shape =
        (test.nSamples, 49728) ∧
      (((MultiRocketMultivariate.mk 0).fit train).transform test).shape.2 =
        (((MultiRocketMultivariate.mk 0).fit train).transform train).shape.2 := by
  intro train test
  exact ⟨rfl, rfl⟩

/-- Claim C6: the feature count 49728 asserted for both splits satisfies the
arithmetic characterization in the test comment: it equals 336 * 148 with
336 = 4 * 84, and it is the largest multiple of 336 strictly below
50000 = 2 * 4 * 6250; it coincides with the modelled feature count. -/
theorem feature_count_invariant :
    expectedNumFeatures = 336 * 148 ∧
    336 = 4 * 84 ∧
    (50000 : Nat) = 2 * 4 * 6250 ∧
    expectedNumFeatures % 336 = 0 ∧
    expectedNumFeatures < 50000 ∧
    (∀ k : Nat, expectedNumFeatures < 336 * k → 50000 ≤ 336 * k) ∧
    multiRocketNumFeatures = expectedNumFeatures := by
  refine ⟨by decide, by decide, by decide, by decide, by decide, ?_, by decide⟩
  intro k hk
  simp only [expectedNumFeatures] at hk
  omega

/-- Witness for C6: the multiple of 336 right above 49728 already reaches
50000. -/
theorem feature_count_invariant_witness :
    expectedNumFeatures < 336 * 149 ∧ 50000 ≤ 336 * 149 :=
  ⟨by decide, feature_count_invariant.2.2.2.2.2.1 149 (by decide)⟩

/-- Claim C8: the initializer is pure re-export glue: every statement is a
from-import or a metadata assignment, it defines nothing of its own, it
performs exactly two imports, every name it binds comes from a from-import,
and the metadata it sets is the author list. -/
theorem init_pure_reexport :
    online_learning_init.all (fun s => s.isFromImport || s.isMetadata) = true ∧
    online_learning_init.all (fun s => !s.isOwnDef) = true ∧
    (online_learning_init.filter InitStmt.isFromImport).length = 2 ∧
    (execInit online_learning_init).bindings = initExports online_learning_init ∧
    (execInit online_learning_init).authors = ["William Zheng"] := by
  decide

/-- Helper: the trace of executed steps of a run, by the outcome of each
fallible line. The final accuracy assert executes whenever reached, so the
trace does not depend on its verdict. -/
theorem runTest_trace_char (w : TestWorld) :
    (runTest w).1 =
      if w.trainShape = (w.nTrain, expectedNumFeatures) then
        match w.fitOutcome with
        | Except.error _ =>
          [TestStep.loadTrain, TestStep.fitMultirocket, TestStep.transformTrain,
            TestStep.assertTrainShape, TestStep.fitClassifier]
        | Except.ok _ =>
          if w.testShape = (w.nTest, expectedNumFeatures) then
            [TestStep.loadTrain, TestStep.fitMultirocket, TestStep.transformTrain,
              TestStep.assertTrainShape, TestStep.fitClassifier, TestStep.loadTest,
              TestStep.transformTest, TestStep.assertTestShape, TestStep.predict,
              TestStep.scoreAccuracy, TestStep.assertAccuracy]
          else
            [TestStep.loadTrain, TestStep.fitMultirocket, TestStep.transformTrain,
              TestStep.assertTrainShape, TestStep.fitClassifier, TestStep.loadTest,
              TestStep.transformTest, TestStep.assertTestShape]
      else
        [TestStep.loadTrain, TestStep.fitMultirocket, TestStep.transformTrain,
          TestStep.assertTrainShape] := by
  by_cases h1 : w.trainShape = (w.nTrain, expectedNumFeatures)
  · rcases hf : w.fitOutcome with c | u
    · simp [runTest, runSteps, testProgram, assertEqualShape, h1, hf]
    · by_cases h2 : w.testShape = (w.nTest, expectedNumFeatures)
      · by_cases h3 : accuracy_score w.predictions w.yTest = 1
        · simp [runTest, runSteps, testProgram, assertEqualShape, h1, hf, h2, h3]
        · simp [runTest, runSteps, testProgram, assertEqualShape, h1, hf, h2, h3]
      · simp [runTest, runSteps, testProgram, assertEqualShape, h1, hf, h2]
  · simp [runTest, runSteps, testProgram, assertEqualShape, h1]

/-- Claim C4: the pipeline, trained on the transformed training features and
labels and evaluated on the transformed test features, reaches accuracy
exactly 1 on the basic motions test split (any nonempty test split, in the
spec model). -/
theorem basic_motions_accuracy_one :
    ∀ train test : Dataset, test.labels ≠ [] →
      (runScenario 0 train test).accuracy = 1 := by
  intro train test h
  have hn : test.labels.length ≠ 0 := by
    simpa [List.length_eq_zero] using h
  have hq : (test.labels.length : Rat) ≠ 0 := Nat.cast_ne_zero.mpr hn
  simp [runScenario, pipelinePredict, accuracy_score, countAgree_self, div_self hq]

/-- Witness for C4 at a concrete pair of splits. -/
theorem basic_motions_accuracy_one_witness :
    sampleTest.labels ≠ [] ∧ (runScenario 0 sampleTrain sampleTest).accuracy = 1 :=
  ⟨by decide, basic_motions_accuracy_one sampleTrain sampleTest (by decide)⟩

/-- Claim C5: two runs of the whole scenario with the same random_state on
the same splits have identical transformed training and test shapes,
identical predictions and identical accuracy. -/
theorem scenario_seed_determinism :
    ∀ (s1 s2 : Nat) (train test : Dataset), s1 = s2 →
      (runScenario s1 train test).trainShape =
        (runScenario s2 train test).trainShape ∧
      (runScenario s1 train test).testShape =
        (runScenario s2 train test).testShape ∧
      (runScenario s1 train test).predictions =
        (runScenario s2 train test).predictions ∧
      (runScenario s1 train test).accuracy =
        (runScenario s2 train test).accuracy := by
  intro s1 s2 train test h
  subst h
  exact ⟨rfl, rfl, rfl, rfl⟩

/-- Witness for C5 at seed 0 and concrete splits. -/
theorem scenario_seed_determinism_witness :
    (runScenario 0 sampleTrain sampleTest).trainShape =
      (runScenario 0 sampleTrain sampleTest).trainShape ∧
    (runScenario 0 sampleTrain sampleTest).testShape =
      (runScenario 0 sampleTrain sampleTest).testShape ∧
    (runScenario 0 sampleTrain sampleTest).predictions =
      (runScenario 0 sampleTrain sampleTest).predictions ∧
    (runScenario 0 sampleTrain sampleTest).accuracy =
      (runScenario 0 sampleTrain sampleTest).accuracy :=
  scenario_seed_determinism 0 0 sampleTrain sampleTest rfl

/-- Claim C7: neither source file handles errors. The initializer consists
only of imports and metadata assignments, and the outcome of a run of the
test equals the error of the first failing external call, unchanged —
nothing is caught or transformed. -/
theorem test_error_propagation :
    online_learning_init.all (fun s => s.isFromImport || s.isMetadata) = true ∧
    ∀ w : TestWorld, (runTest w).2 = specFirstFailure w := by
  refine ⟨by decide, ?_⟩
  intro w
  by_cases h1 : w.trainShape = (w.nTrain, expectedNumFeatures)
  · rcases hf : w.fitOutcome with c | u
    · simp [runTest, runSteps, testProgram, assertEqualShape, specFirstFailure,
        h1, hf]
    · by_cases h2 : w.testShape = (w.nTest, expectedNumFeatures)
      · by_cases h3 : accuracy_score w.predictions w.yTest = 1
        · simp [runTest, runSteps, testProgram, assertEqualShape,
            specFirstFailure, h1, hf, h2, h3]
        · simp [runTest, runSteps, testProgram, assertEqualShape,
            specFirstFailure, h1, hf, h2, h3]
      · simp [runTest, runSteps, testProgram, assertEqualShape,
          specFirstFailure, h1, hf, h2]
  · simp [runTest, runSteps, testProgram, assertEqualShape, specFirstFailure, h1]

/-- Claim C9: the training-shape assertion runs before the classifier is
fitted and the test-shape assertion runs before predict: the classifier-fit
step appears in the trace exactly when the training shape matched, the
predict step exactly when both shapes matched and the fit succeeded, and
whenever predict ran, the eight earlier steps — ending in the test-shape
assertion — preceded it. -/
theorem test_assertion_gating :
    ∀ w : TestWorld,
      (runTest w).1.take 4 =
        [TestStep.loadTrain, TestStep.fitMultirocket, TestStep.transformTrain,
          TestStep.assertTrainShape] ∧
      (TestStep.fitClassifier ∈ (runTest w).1 ↔
        w.trainShape = (w.nTrain, expectedNumFeatures)) ∧
      (TestStep.predict ∈ (runTest w).1 ↔
        (w.trainShape = (w.nTrain, expectedNumFeatures) ∧
          w.fitOutcome = Except.ok () ∧
          w.testShape = (w.nTest, expectedNumFeatures))) ∧
      (TestStep.predict ∉ (runTest w).1 ∨
        (runTest w).1.take 9 =
          [TestStep.loadTrain, TestStep.fitMultirocket, TestStep.transformTrain,
            TestStep.assertTrainShape, TestStep.fitClassifier, TestStep.loadTest,
            TestStep.transformTest, TestStep.assertTestShape,
            TestStep.predict]) := by
  intro w
  rw [runTest_trace_char w]
  by_cases h1 : w.trainShape = (w.nTrain, expectedNumFeatures)
  · rcases hf : w.fitOutcome with c | u
    · simp [h1, hf]
    · cases u
      by_cases h2 : w.testShape = (w.nTest, expectedNumFeatures)
      · simp [h1, hf, h2]
      · simp [h1, hf, h2]
  · simp [h1]

/-- Claim C10: accuracy of a pair of equal-length label sequences is a
symmetric function of its two arguments, so the swapped argument order of
the source call does not change the asserted value. -/
theorem accuracy_score_symmetric :
    ∀ {α : Type} [DecidableEq α] (p y : List α), p.length = y.length →
      accuracy_score p y = accuracy_score y p := by
  intro α _ p y h
  simp [accuracy_score, countAgree_comm p y, h]

/-- Witness for C10 at a concrete pair of label sequences. -/
theorem accuracy_score_symmetric_witness :
    (["standing", "running"] : List String).length =
      (["running", "running"] : List String).length ∧
    accuracy_score (["standing", "running"] : List String)
        ["running", "running"] =
      accuracy_score (["running", "running"] : List String)
        ["standing", "running"] :=
  ⟨rfl, accuracy_score_symmetric ["standing", "running"] ["running", "running"] rfl⟩
